import Mathlib

/-!
Verification development for the schtools cached remote-resource
acquisition subsystem.

The definitions below are a shallow embedding of the Python source:

* `downloadLoop` embeds the retry loop of `_download_sch_database`
  (src/schtools/_sch_database.py): each network-transfer attempt either
  succeeds, fails with a transient network error (`URLError` or
  `TimeoutError`, the only exceptions caught by the inner handler), fails
  with any other exception, or is interrupted (`KeyboardInterrupt`).  A
  transient failure with remaining budget emits a warning, decrements the
  budget, sleeps and retries; with budget 0 it propagates.  Any other
  failure propagates at once to the outer handler.
* `runDownload` embeds the whole of `_download_sch_database` around the
  loop: create the staging temporary file, run the loop, on any exception
  unlink the staging file and re-raise, on success `shutil.move` the
  staging file onto the canonical path and then check that the canonical
  path exists, raising `OSError` if the filesystem reports it absent.
  File contents are abstracted as natural numbers; the post-move existence
  query is an environment parameter because the code asks the real
  filesystem, whose answer the function does not control.
* `fetchRun` embeds the decision logic and body of `fetch_sch_database`:
  the nested conditionals on file existence, age versus the grace period,
  `force_download` and `download_if_missing`, followed by reading the
  canonical file into a DataFrame which is the returned value.
-/

namespace SchTools

/-- File contents, abstracted as a natural number tag. -/
abbrev Content := Nat

/-- Outcome of one `urlretrieve` attempt inside `_download_sch_database`. -/
inductive AttemptResult where
  | success
  | netError
  | otherError
  | interrupted
deriving DecidableEq, Repr

/-- How the retry loop of `_download_sch_database` ends. -/
inductive LoopOutcome where
  | success
  | netExhausted
  | otherFail
  | interruptFail
deriving DecidableEq, Repr

/-- Observable trace of the retry loop: number of transfer attempts made,
number of retry warnings emitted, number of sleeps performed, and how the
loop ended. -/
structure LoopTrace where
  attempts : Nat
  warnings : Nat
  sleeps : Nat
  outcome : LoopOutcome
deriving DecidableEq, Repr

/-- The `while True` retry loop of `_download_sch_database`.  `results k`
is the outcome of the k-th transfer attempt (counting from `idx`), and the
second `Nat` argument is the remaining retry budget `n_retries`.  A
success breaks out of the loop; a `URLError`/`TimeoutError` with budget 0
re-raises; with positive budget it warns, decrements, sleeps and retries;
any other exception propagates immediately. -/
def downloadLoop (results : Nat → AttemptResult) : Nat → Nat → LoopTrace
  | idx, budget =>
    match results idx with
    | .success => ⟨1, 0, 0, .success⟩
    | .otherError => ⟨1, 0, 0, .otherFail⟩
    | .interrupted => ⟨1, 0, 0, .interruptFail⟩
    | .netError =>
      match budget with
      | 0 => ⟨1, 0, 0, .netExhausted⟩
      | b + 1 =>
        let t := downloadLoop results (idx + 1) b
        ⟨t.attempts + 1, t.warnings + 1, t.sleeps + 1, t.outcome⟩

/-- The two files `_download_sch_database` touches: the canonical cache
file `target_dir / filename` and the staging temporary file.  `none`
means the file is absent. -/
structure Fs where
  canonical : Option Content
  staging : Option Content
deriving DecidableEq, Repr

/-- `NamedTemporaryFile(...)` followed by `close()`: the staging file now
exists, empty. -/
def createStagingFile (s : Fs) : Fs := { s with staging := some 0 }

/-- A successful `urlretrieve` filled the staging file with the payload. -/
def writeStagingFile (c : Content) (s : Fs) : Fs := { s with staging := some c }

/-- `os.unlink(temp_file.name)` in the outer exception handler. -/
def unlinkStagingFile (s : Fs) : Fs := { s with staging := none }

/-- `shutil.move(temp_file_path, sch_file_path)`: the staging file is
renamed onto the canonical path, replacing whatever was there. -/
def moveStagingToCanonical (s : Fs) : Fs :=
  { canonical := s.staging, staging := none }

/-- How a whole run of `_download_sch_database` ends: normal return, or a
propagated exception (exhausted network error, other exception,
keyboard interruption, or the `OSError` raised when the canonical file is
reported absent right after the move). -/
inductive RunResult where
  | ok
  | netError
  | otherError
  | interrupted
  | storageError
deriving DecidableEq, Repr

/-- Final state and result of one run of `_download_sch_database`. -/
structure DownloadRun where
  fsCanonical : Option Content
  fsStaging : Option Content
  result : RunResult
deriving DecidableEq, Repr

/-- One run of `_download_sch_database` over initial filesystem state
`init`.  `payload` is the content a successful transfer downloads, and
`existsAfterMove` is the filesystem's answer to the
`sch_file_path.exists()` check performed right after the move. -/
def runDownload (init : Fs) (nRetries : Nat) (results : Nat → AttemptResult)
    (payload : Content) (existsAfterMove : Bool) : DownloadRun :=
  let s0 := createStagingFile init
  let t := downloadLoop results 0 nRetries
  match t.outcome with
  | .success =>
    let s1 := writeStagingFile payload s0
    let s2 := moveStagingToCanonical s1
    if existsAfterMove then ⟨s2.canonical, s2.staging, .ok⟩
    else ⟨s2.canonical, s2.staging, .storageError⟩
  | .netExhausted =>
    let s1 := unlinkStagingFile s0
    ⟨s1.canonical, s1.staging, .netError⟩
  | .otherFail =>
    let s1 := unlinkStagingFile s0
    ⟨s1.canonical, s1.staging, .otherError⟩
  | .interruptFail =>
    let s1 := unlinkStagingFile s0
    ⟨s1.canonical, s1.staging, .interrupted⟩

/-- Errors `fetch_sch_database` can raise: the `OSError` of the
missing-file-with-download-disabled branch, an exception propagated out of
`_download_sch_database`, or a read of a canonical file that is absent. -/
inductive FetchErr where
  | notLocal
  | downloadErr (r : RunResult)
  | readMissing
deriving DecidableEq, Repr

/-- What `fetch_sch_database` hands back to its caller: either the
DataFrame parsed (by `pd.read_csv` plus the date conversions and the
dropna) from the canonical file whose content is `c`, or the canonical
file path itself.  The source only ever builds the first form; the second
exists so that the spec's `acquire`-returns-a-path contract is statable
against the code. -/
inductive FetchReturn where
  | frame (c : Content)
  | filePath
deriving DecidableEq, Repr

/-- Boolean discriminator: did the call return the canonical file path? -/
def retIsFilePath : Except FetchErr FetchReturn → Bool
  | .ok .filePath => true
  | _ => false

/-- Observable outcome of one call to `fetch_sch_database`: the returned
value or raised error, the number of `_download_sch_database` invocations,
the number of `makedirs` calls performed, and the final content of the
canonical cache file. -/
structure FetchResult where
  ret : Except FetchErr FetchReturn
  downloads : Nat
  dirsCreated : Nat
  finalCanonical : Option Content
deriving Repr

/-- The download branch of `fetch_sch_database`: one invocation of
`_download_sch_database` (whose first statement is the single `makedirs`
call) followed, when it returns normally, by reading the canonical file
into a DataFrame. -/
def downloadAndRead (init : Option Content) (nRetries : Nat)
    (results : Nat → AttemptResult) (payload : Content)
    (existsAfterMove : Bool) : FetchResult :=
  let d := runDownload ⟨init, none⟩ nRetries results payload existsAfterMove
  { ret :=
      match d.result, d.fsCanonical with
      | .ok, some c => .ok (.frame c)
      | .ok, none => .error .readMissing
      | .netError, _ => .error (.downloadErr .netError)
      | .otherError, _ => .error (.downloadErr .otherError)
      | .interrupted, _ => .error (.downloadErr .interrupted)
      | .storageError, _ => .error (.downloadErr .storageError)
    downloads := 1
    dirsCreated := 1
    finalCanonical := d.fsCanonical }

/-- The body of `fetch_sch_database`.  `init` is the content of the
canonical cache file (`none` when `sch_file_path.exists()` is false),
`ageDays` is `(datetime.today() - mtime).days`, `graceDays` is
`download_grace_period`.  The nested conditionals mirror the source: if
the file exists and its age exceeds the grace period, download; else if
`force_download`, download; else serve the existing file.  If the file is
missing, download when `download_if_missing` and raise `OSError`
otherwise.  All non-raising paths end by reading the canonical file into
the returned DataFrame. -/
def fetchRun (init : Option Content) (ageDays graceDays : Int)
    (downloadIfMissing forceDownload : Bool) (nRetries : Nat)
    (results : Nat → AttemptResult) (payload : Content)
    (existsAfterMove : Bool) : FetchResult :=
  match init with
  | some c =>
    if ageDays > graceDays then
      downloadAndRead (some c) nRetries results payload existsAfterMove
    else if forceDownload then
      downloadAndRead (some c) nRetries results payload existsAfterMove
    else ⟨.ok (.frame c), 0, 0, some c⟩
  | none =>
    if downloadIfMissing then
      downloadAndRead none nRetries results payload existsAfterMove
    else ⟨.error .notLocal, 0, 0, none⟩

/-! ### Cache location resolver (src/schtools/config.py, `_get_data_home`)

Filesystem paths are modelled as lists of path components.
`os.path.expanduser` replaces a leading `~` component with the user's home
directory.  `os.makedirs(p, exist_ok=True)` creates `p` together with all
missing ancestors and never fails when `p` already exists; without
`exist_ok` it fails on an existing directory.  The set of existing
directories is carried as an explicit list. -/

/-- A filesystem path as its list of components. -/
abbrev PathRep := List String

/-- `os.path.expanduser`: a leading `~` component is replaced by the home
directory; any other path is returned unchanged. -/
def expandUser (home : PathRep) : PathRep → PathRep
  | [] => []
  | s :: rest => if s = "~" then home ++ rest else s :: rest

/-- All ancestors of a path, innermost last: the path made of its first
component, then its first two components, and so on up to the path
itself. -/
def dirChain : PathRep → List PathRep
  | [] => []
  | s :: rest => [s] :: (dirChain rest).map (fun q => s :: q)

/-- `os.makedirs(p, exist_ok=existOk)` over an explicit list of existing
directories: when `p` exists it succeeds without change only when
`existOk`; otherwise it creates every missing ancestor of `p` and `p`
itself. -/
def makedirs (existOk : Bool) (dirs : List PathRep) (p : PathRep) :
    Option (List PathRep) :=
  if p ∈ dirs then
    if existOk then some dirs else none
  else some (((dirChain p).filter (fun q => !decide (q ∈ dirs))) ++ dirs)

/-- The resolution step of `_get_data_home` in config.py: the explicit
argument wins; otherwise the `SCH_DATAHOME` environment variable;
otherwise `join(LOCALAPPDATA or "~", "sch_tools", "datasets")`; the result
is passed through `expanduser`. -/
def resolveDataHome (localAppData schDataHomeEnv : Option PathRep)
    (home : PathRep) (arg : Option PathRep) : PathRep :=
  let defaultDataHome := (localAppData.getD ["~"]) ++ ["sch_tools", "datasets"]
  expandUser home
    (match arg with
     | some d => d
     | none => schDataHomeEnv.getD defaultDataHome)

/-- The dictionary `_get_data_home` in config.py returns. -/
structure DataHomePaths where
  data_home : PathRep
  sch_data_home : PathRep
  search_results_data_home : PathRep
  annotation_data_home : PathRep
deriving DecidableEq, Repr

/-- `_get_data_home` of config.py: resolve the data home, derive the
`sch`, `search_results` and `annotation` subdirectories, create each with
`makedirs(..., exist_ok=True)`, and return the dictionary of paths
together with the updated directory list.  `none` models a raised
filesystem error. -/
def getDataHome (localAppData schDataHomeEnv : Option PathRep)
    (home : PathRep) (arg : Option PathRep) (dirs : List PathRep) :
    Option (DataHomePaths × List PathRep) :=
  let dataHome := resolveDataHome localAppData schDataHomeEnv home arg
  let sch := dataHome ++ ["sch"]
  let sr := dataHome ++ ["search_results"]
  let ann := dataHome ++ ["annotation"]
  match makedirs true dirs sch with
  | none => none
  | some d1 =>
    match makedirs true d1 sr with
    | none => none
    | some d2 =>
      match makedirs true d2 ann with
      | none => none
      | some d3 => some (⟨dataHome, sch, sr, ann⟩, d3)

/-! ### Python call binding (datamanager/datasets.py) -/

/-- Exception classes the embedded fragments raise. -/
inductive PyErr where
  | typeErr
  | fileNotFound
  | osErr
deriving DecidableEq, Repr

/-- Number of parameters of `fetch_sch_database` that may be bound
positionally: the signature starts with a bare `*`, so every parameter is
keyword-only. -/
def fetchSchDatabaseNumPositionalParams : Nat := 0

/-- Result of binding a Python call: either a `TypeError` before the body
runs, or entry into the body. -/
structure CallBind where
  bindError : Option PyErr
  bodyEntered : Bool
deriving DecidableEq, Repr

/-- Binding a call to `fetch_sch_database` given its positional argument
list: passing more positional arguments than the signature accepts raises
`TypeError` without entering the body. -/
def bindFetchSchDatabaseCall (posArgs : List PathRep) : CallBind :=
  if posArgs.length > fetchSchDatabaseNumPositionalParams then
    ⟨some .typeErr, false⟩
  else ⟨none, true⟩

/-- The call `fetch_sch_database(config["datasets"]["sch_data_home"])`
made by `SCHToolsDatasets.__init__`: whatever value the config holds is
passed as the single positional argument. -/
def schToolsDatasetsInitBind (schDataHomeValue : PathRep) : CallBind :=
  bindFetchSchDatabaseCall [schDataHomeValue]

/-! ### Annotation loading (src/schtools/_annotation.py) -/

/-- What the annotation loader can hand back: the DataFrame parsed by
`pd.read_excel` from the file at `source`, or a bare file path.  The
source only builds the first form; the second exists because the
function's signature and docstring declare a path return. -/
inductive AnnotResult where
  | frame (source : PathRep)
  | filePathOf (p : PathRep)
deriving DecidableEq, Repr

/-- The body of the annotation loader: expand `~` in the given path, raise
`FileNotFoundError` when the expanded path does not exist, and otherwise
return the DataFrame read from it.  `fsExists` is the filesystem's
existence predicate. -/
def fetchAnnot (home : PathRep) (fsExists : PathRep → Bool)
    (p : PathRep) : Except PyErr AnnotResult :=
  let p2 := expandUser home p
  if fsExists p2 then .ok (.frame p2) else .error .fileNotFound

/-! ## Theorems -/

/-- C1: for every grace period, if the canonical cache file exists, its
age in days is at most the grace period, and `force_download` is false,
then `fetch_sch_database` invokes `_download_sch_database` zero times and
returns the DataFrame read from the already-present file, leaving the
canonical file untouched. -/
theorem fetch_within_grace_serves_existing
    (c : SchTools.Content) (ageDays graceDays : Int) (dim : Bool)
    (nRetries : Nat) (results : Nat → SchTools.AttemptResult)
    (payload : SchTools.Content) (existsOk : Bool)
    (hage : ageDays ≤ graceDays) :
    (SchTools.fetchRun (some c) ageDays graceDays dim false nRetries results
      payload existsOk).downloads = 0 ∧
    (SchTools.fetchRun (some c) ageDays graceDays dim false nRetries results
      payload existsOk).ret = .ok (.frame c) ∧
    (SchTools.fetchRun (some c) ageDays graceDays dim false nRetries results
      payload existsOk).finalCanonical = some c := by
  have h : ¬ ageDays > graceDays := not_lt.mpr hage
  simp [SchTools.fetchRun, h]

/-- Witness for C1 at a concrete input: file present with age 179 days,
grace period 180 days, not forced. -/
theorem fetch_within_grace_serves_existing_witness :
    (SchTools.fetchRun (some 5) 179 180 true false 3
      (fun _ => SchTools.AttemptResult.success) 9 true).downloads = 0 ∧
    (SchTools.fetchRun (some 5) 179 180 true false 3
      (fun _ => SchTools.AttemptResult.success) 9 true).ret = .ok (.frame 5) ∧
    (SchTools.fetchRun (some 5) 179 180 true false 3
      (fun _ => SchTools.AttemptResult.success) 9 true).finalCanonical = some 5 :=
  fetch_within_grace_serves_existing 5 179 180 true 3
    (fun _ => SchTools.AttemptResult.success) 9 true (by decide)

/-- C2 counterexample: a forced call (`force_download=True`) with the
canonical file missing and `download_if_missing=False` performs zero
invocations of `_download_sch_database` and raises the not-available
`OSError`, contradicting exactly-one-download-on-every-forced-call. -/
theorem forced_call_missing_no_dim_zero_downloads :
    (SchTools.fetchRun none 0 180 false true 3
      (fun _ => SchTools.AttemptResult.success) 9 true).downloads = 0 ∧
    (SchTools.fetchRun none 0 180 false true 3
      (fun _ => SchTools.AttemptResult.success) 9 true).ret = .error .notLocal :=
  ⟨rfl, rfl⟩

/-- C2 as amended: a forced call performs exactly one invocation of
`_download_sch_database` whenever the canonical file exists (fresh or
stale), and also when it is missing provided `download_if_missing` is
true; when the file is missing and `download_if_missing` is false, the
call raises the not-available error with no download. -/
theorem forced_call_one_download
    (c : SchTools.Content) (ageDays graceDays : Int) (dim : Bool)
    (nRetries : Nat) (results : Nat → SchTools.AttemptResult)
    (payload : SchTools.Content) (existsOk : Bool) :
    (SchTools.fetchRun (some c) ageDays graceDays dim true nRetries results
      payload existsOk).downloads = 1 ∧
    (SchTools.fetchRun none ageDays graceDays true true nRetries results
      payload existsOk).downloads = 1 ∧
    (SchTools.fetchRun none ageDays graceDays false true nRetries results
      payload existsOk).downloads = 0 ∧
    (SchTools.fetchRun none ageDays graceDays false true nRetries results
      payload existsOk).ret = .error .notLocal := by
  refine ⟨?_, rfl, rfl, rfl⟩
  by_cases h : ageDays > graceDays
  · simp [SchTools.fetchRun, h, SchTools.downloadAndRead]
  · simp [SchTools.fetchRun, h, SchTools.downloadAndRead]

/-- C6: when the canonical cache file does not exist and
`download_if_missing` is false, `fetch_sch_database` raises the
not-available-locally `OSError` with zero invocations of
`_download_sch_database` and zero `makedirs` calls, for every value of
`force_download`. -/
theorem fetch_missing_download_disabled
    (ageDays graceDays : Int) (force : Bool) (nRetries : Nat)
    (results : Nat → SchTools.AttemptResult) (payload : SchTools.Content)
    (existsOk : Bool) :
    (SchTools.fetchRun none ageDays graceDays false force nRetries results
      payload existsOk).ret = .error .notLocal ∧
    (SchTools.fetchRun none ageDays graceDays false force nRetries results
      payload existsOk).downloads = 0 ∧
    (SchTools.fetchRun none ageDays graceDays false force nRetries results
      payload existsOk).dirsCreated = 0 :=
  ⟨rfl, rfl, rfl⟩

/-- Unfolding equation of the retry loop: a successful attempt ends the
loop at once. -/
theorem downloadLoop_eq_success (results : Nat → SchTools.AttemptResult)
    (idx budget : Nat) (h : results idx = .success) :
    SchTools.downloadLoop results idx budget = ⟨1, 0, 0, .success⟩ := by
  cases budget <;> simp [SchTools.downloadLoop, h]

/-- Unfolding equation of the retry loop: a non-network exception ends
the loop at once. -/
theorem downloadLoop_eq_other (results : Nat → SchTools.AttemptResult)
    (idx budget : Nat) (h : results idx = .otherError) :
    SchTools.downloadLoop results idx budget = ⟨1, 0, 0, .otherFail⟩ := by
  cases budget <;> simp [SchTools.downloadLoop, h]

/-- Unfolding equation of the retry loop: a keyboard interruption ends
the loop at once. -/
theorem downloadLoop_eq_interrupt (results : Nat → SchTools.AttemptResult)
    (idx budget : Nat) (h : results idx = .interrupted) :
    SchTools.downloadLoop results idx budget = ⟨1, 0, 0, .interruptFail⟩ := by
  cases budget <;> simp [SchTools.downloadLoop, h]

/-- Unfolding equation of the retry loop: a network error with no budget
left re-raises. -/
theorem downloadLoop_eq_net_zero (results : Nat → SchTools.AttemptResult)
    (idx : Nat) (h : results idx = .netError) :
    SchTools.downloadLoop results idx 0 = ⟨1, 0, 0, .netExhausted⟩ := by
  simp [SchTools.downloadLoop, h]

/-- Unfolding equation of the retry loop: a network error with positive
budget warns, sleeps and retries with the budget decremented. -/
theorem downloadLoop_eq_net_succ (results : Nat → SchTools.AttemptResult)
    (idx b : Nat) (h : results idx = .netError) :
    SchTools.downloadLoop results idx (b + 1) =
      ⟨(SchTools.downloadLoop results (idx + 1) b).attempts + 1,
       (SchTools.downloadLoop results (idx + 1) b).warnings + 1,
       (SchTools.downloadLoop results (idx + 1) b).sleeps + 1,
       (SchTools.downloadLoop results (idx + 1) b).outcome⟩ := by
  simp [SchTools.downloadLoop, h]

/-- Every run of the retry loop makes at least one transfer attempt. -/
theorem downloadLoop_attempts_pos (results : Nat → SchTools.AttemptResult) :
    ∀ (budget idx : Nat), 1 ≤ (SchTools.downloadLoop results idx budget).attempts := by
  intro budget
  induction budget with
  | zero =>
    intro idx
    cases h : results idx <;> simp [SchTools.downloadLoop, h]
  | succ b ih =>
    intro idx
    cases h : results idx <;> simp [SchTools.downloadLoop, h]

/-- The retry loop makes at most `budget + 1` transfer attempts. -/
theorem downloadLoop_attempts_le (results : Nat → SchTools.AttemptResult) :
    ∀ (budget idx : Nat),
      (SchTools.downloadLoop results idx budget).attempts ≤ budget + 1 := by
  intro budget
  induction budget with
  | zero =>
    intro idx
    cases h : results idx <;> simp [SchTools.downloadLoop, h]
  | succ b ih =>
    intro idx
    cases h : results idx <;> simp [SchTools.downloadLoop, h]
    have := ih (idx + 1)
    omega

/-- The retry loop emits exactly one warning per attempt after the
first. -/
theorem downloadLoop_warnings_eq (results : Nat → SchTools.AttemptResult) :
    ∀ (budget idx : Nat),
      (SchTools.downloadLoop results idx budget).warnings
        = (SchTools.downloadLoop results idx budget).attempts - 1 := by
  intro budget
  induction budget with
  | zero =>
    intro idx
    cases h : results idx <;> simp [SchTools.downloadLoop, h]
  | succ b ih =>
    intro idx
    cases h : results idx <;> simp [SchTools.downloadLoop, h]
    have h1 := ih (idx + 1)
    have h2 := downloadLoop_attempts_pos results b (idx + 1)
    omega

/-- The retry loop sleeps exactly once per warning it emits. -/
theorem downloadLoop_sleeps_eq (results : Nat → SchTools.AttemptResult) :
    ∀ (budget idx : Nat),
      (SchTools.downloadLoop results idx budget).sleeps
        = (SchTools.downloadLoop results idx budget).warnings := by
  intro budget
  induction budget with
  | zero =>
    intro idx
    cases h : results idx <;> simp [SchTools.downloadLoop, h]
  | succ b ih =>
    intro idx
    cases h : results idx <;> simp [SchTools.downloadLoop, h]
    exact ih (idx + 1)

/-- When the retry loop ends with an exhausted network error it has made
exactly `budget + 1` attempts. -/
theorem downloadLoop_netExhausted_attempts
    (results : Nat → SchTools.AttemptResult) :
    ∀ (budget idx : Nat),
      (SchTools.downloadLoop results idx budget).outcome = .netExhausted →
      (SchTools.downloadLoop results idx budget).attempts = budget + 1 := by
  intro budget
  induction budget with
  | zero =>
    intro idx
    cases h : results idx <;> simp [SchTools.downloadLoop, h]
  | succ b ih =>
    intro idx
    cases h : results idx <;> simp [SchTools.downloadLoop, h]
    intro ho
    have := ih (idx + 1) ho
    omega

/-- Every attempt the retry loop followed by another attempt (that is,
every attempt except the last) failed with a transient network error:
only `URLError`/`TimeoutError` are ever retried. -/
theorem downloadLoop_retried_only_net
    (results : Nat → SchTools.AttemptResult) :
    ∀ (budget idx k : Nat),
      k + 1 < (SchTools.downloadLoop results idx budget).attempts →
      results (idx + k) = .netError := by
  intro budget
  induction budget with
  | zero =>
    intro idx k hk
    cases h : results idx
    case success =>
      rw [downloadLoop_eq_success results idx 0 h] at hk
      exact absurd (show k + 1 < 1 from hk) (by omega)
    case netError =>
      rw [downloadLoop_eq_net_zero results idx h] at hk
      exact absurd (show k + 1 < 1 from hk) (by omega)
    case otherError =>
      rw [downloadLoop_eq_other results idx 0 h] at hk
      exact absurd (show k + 1 < 1 from hk) (by omega)
    case interrupted =>
      rw [downloadLoop_eq_interrupt results idx 0 h] at hk
      exact absurd (show k + 1 < 1 from hk) (by omega)
  | succ b ih =>
    intro idx k hk
    cases h : results idx
    case success =>
      rw [downloadLoop_eq_success results idx (b + 1) h] at hk
      exact absurd (show k + 1 < 1 from hk) (by omega)
    case otherError =>
      rw [downloadLoop_eq_other results idx (b + 1) h] at hk
      exact absurd (show k + 1 < 1 from hk) (by omega)
    case interrupted =>
      rw [downloadLoop_eq_interrupt results idx (b + 1) h] at hk
      exact absurd (show k + 1 < 1 from hk) (by omega)
    case netError =>
      rw [downloadLoop_eq_net_succ results idx b h] at hk
      have hk1 : k + 1 < (SchTools.downloadLoop results (idx + 1) b).attempts + 1 := hk
      cases k with
      | zero => simpa using h
      | succ j =>
        have hrec := ih (idx + 1) j (by omega)
        have harg : idx + (j + 1) = idx + 1 + j := by omega
        rw [harg]
        exact hrec

/-- When the retry loop ends with a non-network exception, that exception
occurred on the final attempt and propagated immediately (no retry was
spent on it). -/
theorem downloadLoop_otherFail_last
    (results : Nat → SchTools.AttemptResult) :
    ∀ (budget idx : Nat),
      (SchTools.downloadLoop results idx budget).outcome = .otherFail →
      results (idx + (SchTools.downloadLoop results idx budget).attempts - 1)
        = .otherError := by
  intro budget
  induction budget with
  | zero =>
    intro idx ho
    cases h : results idx
    case success =>
      rw [downloadLoop_eq_success results idx 0 h] at ho
      exact absurd (show SchTools.LoopOutcome.success = .otherFail from ho)
        (by decide)
    case netError =>
      rw [downloadLoop_eq_net_zero results idx h] at ho
      exact absurd (show SchTools.LoopOutcome.netExhausted = .otherFail from ho)
        (by decide)
    case interrupted =>
      rw [downloadLoop_eq_interrupt results idx 0 h] at ho
      exact absurd (show SchTools.LoopOutcome.interruptFail = .otherFail from ho)
        (by decide)
    case otherError =>
      rw [downloadLoop_eq_other results idx 0 h]
      exact h
  | succ b ih =>
    intro idx ho
    cases h : results idx
    case success =>
      rw [downloadLoop_eq_success results idx (b + 1) h] at ho
      exact absurd (show SchTools.LoopOutcome.success = .otherFail from ho)
        (by decide)
    case interrupted =>
      rw [downloadLoop_eq_interrupt results idx (b + 1) h] at ho
      exact absurd (show SchTools.LoopOutcome.interruptFail = .otherFail from ho)
        (by decide)
    case otherError =>
      rw [downloadLoop_eq_other results idx (b + 1) h]
      exact h
    case netError =>
      rw [downloadLoop_eq_net_succ results idx b h] at ho
      have hrec := ih (idx + 1)
        (show (SchTools.downloadLoop results (idx + 1) b).outcome = .otherFail
          from ho)
      have h1 := downloadLoop_attempts_pos results b (idx + 1)
      rw [downloadLoop_eq_net_succ results idx b h]
      show results
        (idx + ((SchTools.downloadLoop results (idx + 1) b).attempts + 1) - 1)
          = .otherError
      have harg : idx + ((SchTools.downloadLoop results (idx + 1) b).attempts + 1) - 1
          = idx + 1 + (SchTools.downloadLoop results (idx + 1) b).attempts - 1 := by
        omega
      rw [harg]
      exact hrec

/-- C3: the retry loop of `_download_sch_database` retries only transient
network failures: it makes between 1 and `n_retries + 1` transfer
attempts, emits one warning and performs one sleep per retried attempt
(so `attempts - 1` of each), makes exactly `n_retries + 1` attempts when
it ends by re-raising a network error with the budget exhausted, every
non-final attempt failed with a network error, and a non-network
exception is the final attempt's outcome and propagates with no retry
spent on it. -/
theorem download_retry_discipline
    (results : Nat → SchTools.AttemptResult) (idx budget : Nat) :
    1 ≤ (SchTools.downloadLoop results idx budget).attempts ∧
    (SchTools.downloadLoop results idx budget).attempts ≤ budget + 1 ∧
    (SchTools.downloadLoop results idx budget).warnings
      = (SchTools.downloadLoop results idx budget).attempts - 1 ∧
    (SchTools.downloadLoop results idx budget).sleeps
      = (SchTools.downloadLoop results idx budget).warnings ∧
    ((SchTools.downloadLoop results idx budget).outcome = .netExhausted →
      (SchTools.downloadLoop results idx budget).attempts = budget + 1) ∧
    (∀ k, k + 1 < (SchTools.downloadLoop results idx budget).attempts →
      results (idx + k) = .netError) ∧
    ((SchTools.downloadLoop results idx budget).outcome = .otherFail →
      results (idx + (SchTools.downloadLoop results idx budget).attempts - 1)
        = .otherError) :=
  ⟨downloadLoop_attempts_pos results budget idx,
   downloadLoop_attempts_le results budget idx,
   downloadLoop_warnings_eq results budget idx,
   downloadLoop_sleeps_eq results budget idx,
   downloadLoop_netExhausted_attempts results budget idx,
   fun k hk => downloadLoop_retried_only_net results budget idx k hk,
   downloadLoop_otherFail_last results budget idx⟩

/-- Witness for C3 at a concrete input: two transient failures then a
success under a budget of three retries give three attempts, two warnings
and two sleeps. -/
theorem download_retry_discipline_witness :
    (SchTools.downloadLoop
      (fun k => if k < 2 then SchTools.AttemptResult.netError
                else SchTools.AttemptResult.success) 0 3).attempts ≤ 4 ∧
    (SchTools.downloadLoop
      (fun k => if k < 2 then SchTools.AttemptResult.netError
                else SchTools.AttemptResult.success) 0 3).warnings
      = (SchTools.downloadLoop
          (fun k => if k < 2 then SchTools.AttemptResult.netError
                    else SchTools.AttemptResult.success) 0 3).attempts - 1 :=
  ⟨(download_retry_discipline
      (fun k => if k < 2 then SchTools.AttemptResult.netError
                else SchTools.AttemptResult.success) 0 3).2.1,
   (download_retry_discipline
      (fun k => if k < 2 then SchTools.AttemptResult.netError
                else SchTools.AttemptResult.success) 0 3).2.2.1⟩

/-- C4: whenever `_download_sch_database` propagates an exception raised
during the download loop — an exhausted transient network error, any
other exception, or a keyboard interruption — the staging temporary file
has been unlinked before the exception propagates and the canonical cache
file still holds exactly its initial content. -/
theorem download_failure_cleanup
    (init : SchTools.Fs) (nRetries : Nat)
    (results : Nat → SchTools.AttemptResult) (payload : SchTools.Content)
    (existsOk : Bool)
    (h : (SchTools.runDownload init nRetries results payload existsOk).result
          = .netError ∨
        (SchTools.runDownload init nRetries results payload existsOk).result
          = .otherError ∨
        (SchTools.runDownload init nRetries results payload existsOk).result
          = .interrupted) :
    (SchTools.runDownload init nRetries results payload existsOk).fsStaging
      = none ∧
    (SchTools.runDownload init nRetries results payload existsOk).fsCanonical
      = init.canonical := by
  cases ho : (SchTools.downloadLoop results 0 nRetries).outcome
  case success =>
    cases existsOk <;>
      simp [SchTools.runDownload, ho, SchTools.createStagingFile,
        SchTools.writeStagingFile, SchTools.moveStagingToCanonical] at h
  case netExhausted =>
    simp [SchTools.runDownload, ho, SchTools.createStagingFile,
      SchTools.unlinkStagingFile]
  case otherFail =>
    simp [SchTools.runDownload, ho, SchTools.createStagingFile,
      SchTools.unlinkStagingFile]
  case interruptFail =>
    simp [SchTools.runDownload, ho, SchTools.createStagingFile,
      SchTools.unlinkStagingFile]

/-- Witness for C4 at a concrete input: a single network failure with no
budget left propagates, the staging file is gone, and the canonical file
still holds its old content. -/
theorem download_failure_cleanup_witness :
    (SchTools.runDownload ⟨some 5, none⟩ 0
      (fun _ => SchTools.AttemptResult.netError) 9 true).fsStaging = none ∧
    (SchTools.runDownload ⟨some 5, none⟩ 0
      (fun _ => SchTools.AttemptResult.netError) 9 true).fsCanonical
      = some 5 :=
  download_failure_cleanup ⟨some 5, none⟩ 0
    (fun _ => SchTools.AttemptResult.netError) 9 true (Or.inl (by decide))

/-- C5: when the download loop succeeds, `_download_sch_database` moves
the staged file onto the canonical path (the canonical file now holds the
downloaded payload and the staging file is gone) and then checks that the
canonical path exists: it returns normally exactly when the filesystem
reports the file present, and raises the unrecoverable `OSError` exactly
when it reports it absent. -/
theorem download_success_publish_and_verify
    (init : SchTools.Fs) (nRetries : Nat)
    (results : Nat → SchTools.AttemptResult) (payload : SchTools.Content)
    (existsOk : Bool)
    (h : (SchTools.downloadLoop results 0 nRetries).outcome = .success) :
    (SchTools.runDownload init nRetries results payload existsOk).fsCanonical
      = some payload ∧
    (SchTools.runDownload init nRetries results payload existsOk).fsStaging
      = none ∧
    ((SchTools.runDownload init nRetries results payload existsOk).result
        = .ok ↔ existsOk = true) ∧
    ((SchTools.runDownload init nRetries results payload existsOk).result
        = .storageError ↔ existsOk = false) := by
  cases existsOk <;>
    simp [SchTools.runDownload, h, SchTools.createStagingFile,
      SchTools.writeStagingFile, SchTools.moveStagingToCanonical]

/-- Witness for C5 at a concrete input: an immediately successful
transfer with the filesystem confirming the moved file publishes the
payload and returns normally. -/
theorem download_success_publish_and_verify_witness :
    (SchTools.runDownload ⟨none, none⟩ 3
      (fun _ => SchTools.AttemptResult.success) 7 true).fsCanonical
      = some 7 ∧
    (SchTools.runDownload ⟨none, none⟩ 3
      (fun _ => SchTools.AttemptResult.success) 7 true).fsStaging = none ∧
    ((SchTools.runDownload ⟨none, none⟩ 3
      (fun _ => SchTools.AttemptResult.success) 7 true).result
        = .ok ↔ true = true) ∧
    ((SchTools.runDownload ⟨none, none⟩ 3
      (fun _ => SchTools.AttemptResult.success) 7 true).result
        = .storageError ↔ true = false) :=
  download_success_publish_and_verify ⟨none, none⟩ 3
    (fun _ => SchTools.AttemptResult.success) 7 true (by decide)

/-- A nonempty path occurs in the ancestor chain of any extension of
itself. -/
theorem mem_dirChain_append (r : SchTools.PathRep) :
    ∀ s : SchTools.PathRep, r ≠ [] → r ∈ SchTools.dirChain (r ++ s) := by
  induction r with
  | nil => intro s hr; exact absurd rfl hr
  | cons a r ih =>
    intro s _
    cases r with
    | nil => simp [SchTools.dirChain]
    | cons b r2 =>
      have ih2 := ih s (by simp)
      simp only [SchTools.dirChain, List.cons_append]
      apply List.mem_cons_of_mem
      exact List.mem_map.mpr ⟨b :: r2, ih2, rfl⟩

/-- A nonempty path occurs in its own ancestor chain. -/
theorem mem_dirChain_self (p : SchTools.PathRep) (hp : p ≠ []) :
    p ∈ SchTools.dirChain p := by
  have h := mem_dirChain_append p [] hp
  simpa using h

/-- `makedirs` with `exist_ok=True` never fails. -/
theorem makedirs_existOk_isSome (dirs : List SchTools.PathRep)
    (p : SchTools.PathRep) : (SchTools.makedirs true dirs p).isSome := by
  unfold SchTools.makedirs
  split <;> simp

/-- `makedirs` never removes a directory. -/
theorem makedirs_mono (dirs d : List SchTools.PathRep)
    (p q : SchTools.PathRep) (hq : q ∈ dirs)
    (h : SchTools.makedirs true dirs p = some d) : q ∈ d := by
  unfold SchTools.makedirs at h
  split at h
  · simp at h
    subst h
    exact hq
  · simp at h
    subst h
    exact List.mem_append.mpr (Or.inr hq)

/-- After a successful `makedirs` of a nonempty path, that path exists. -/
theorem makedirs_self_mem (dirs d : List SchTools.PathRep)
    (p : SchTools.PathRep) (hp : p ≠ [])
    (h : SchTools.makedirs true dirs p = some d) : p ∈ d := by
  unfold SchTools.makedirs at h
  split at h
  case isTrue hmem =>
    simp at h
    subst h
    exact hmem
  case isFalse hmem =>
    simp at h
    subst h
    apply List.mem_append.mpr
    left
    apply List.mem_filter.mpr
    exact ⟨mem_dirChain_self p hp, by simp [hmem]⟩

/-- `makedirs` of an absent path also creates each nonempty ancestor of
the path (creation with parents). -/
theorem makedirs_parent_mem (dirs d : List SchTools.PathRep)
    (r s : SchTools.PathRep) (hr : r ≠ []) (hnot : r ++ s ∉ dirs)
    (h : SchTools.makedirs true dirs (r ++ s) = some d) : r ∈ d := by
  unfold SchTools.makedirs at h
  split at h
  case isTrue hmem => exact absurd hmem hnot
  case isFalse hmem =>
    simp at h
    subst h
    by_cases hrd : r ∈ dirs
    · exact List.mem_append.mpr (Or.inr hrd)
    · apply List.mem_append.mpr
      left
      apply List.mem_filter.mpr
      exact ⟨mem_dirChain_append r s hr, by simp [hrd]⟩

/-- C7: the cache location resolver resolves the data directory with
precedence explicit argument over the `SCH_DATAHOME` environment variable
over the platform default (`LOCALAPPDATA` when set, else the user home),
expanding a leading `~`; it then creates the data directories (with
parents) when absent using `exist_ok` creation, so the call never fails —
in particular repeated calls with the directories already present
succeed. -/
theorem data_home_resolver_spec
    (lad env : Option SchTools.PathRep) (home e v : SchTools.PathRep)
    (arg : Option SchTools.PathRep) (dirs : List SchTools.PathRep) :
    SchTools.resolveDataHome lad env home (some e)
      = SchTools.expandUser home e ∧
    SchTools.resolveDataHome lad (some v) home none
      = SchTools.expandUser home v ∧
    SchTools.resolveDataHome lad none home none
      = SchTools.expandUser home
          ((lad.getD ["~"]) ++ ["sch_tools", "datasets"]) ∧
    (SchTools.getDataHome lad env home arg dirs).isSome ∧
    (∀ paths dirs2,
      SchTools.getDataHome lad env home arg dirs = some (paths, dirs2) →
      paths.data_home = SchTools.resolveDataHome lad env home arg ∧
      paths.sch_data_home = paths.data_home ++ ["sch"] ∧
      paths.sch_data_home ∈ dirs2 ∧
      paths.search_results_data_home ∈ dirs2 ∧
      paths.annotation_data_home ∈ dirs2 ∧
      (paths.data_home ≠ [] → paths.sch_data_home ∉ dirs →
        paths.data_home ∈ dirs2)) := by
  obtain ⟨d1, h1⟩ := Option.isSome_iff_exists.mp
    (makedirs_existOk_isSome dirs
      (SchTools.resolveDataHome lad env home arg ++ ["sch"]))
  obtain ⟨d2, h2⟩ := Option.isSome_iff_exists.mp
    (makedirs_existOk_isSome d1
      (SchTools.resolveDataHome lad env home arg ++ ["search_results"]))
  obtain ⟨d3, h3⟩ := Option.isSome_iff_exists.mp
    (makedirs_existOk_isSome d2
      (SchTools.resolveDataHome lad env home arg ++ ["annotation"]))
  refine ⟨rfl, rfl, rfl, ?_, ?_⟩
  · simp [SchTools.getDataHome, h1, h2, h3]
  · intro paths dirs2 heq
    simp only [SchTools.getDataHome, h1, h2, h3] at heq
    obtain ⟨hpaths, hdirs⟩ := Prod.mk.injEq .. ▸ Option.some.injEq .. ▸ heq
    subst hpaths
    subst hdirs
    refine ⟨rfl, rfl, ?_, ?_, ?_, ?_⟩
    · exact makedirs_mono d2 d3 _ _
        (makedirs_mono d1 d2 _ _
          (makedirs_self_mem dirs d1 _ (by simp) h1) h2) h3
    · exact makedirs_mono d2 d3 _ _
        (makedirs_self_mem d1 d2 _ (by simp) h2) h3
    · exact makedirs_self_mem d2 d3 _ (by simp) h3
    · intro hne hnot
      exact makedirs_mono d2 d3 _ _
        (makedirs_mono d1 d2 _ _
          (makedirs_parent_mem dirs d1 _ _ hne hnot h1) h2) h3

/-- Witness for C7 at a concrete input: an explicit `~`-prefixed argument
wins over the (absent) environment settings and the call succeeds. -/
theorem data_home_resolver_spec_witness :
    SchTools.resolveDataHome none none ["home"] (some ["~", "d"])
      = SchTools.expandUser ["home"] ["~", "d"] ∧
    (SchTools.getDataHome none none ["home"] (some ["~", "d"]) []).isSome :=
  ⟨(data_home_resolver_spec none none ["home"] ["~", "d"] []
      (some ["~", "d"]) []).1,
   (data_home_resolver_spec none none ["home"] ["~", "d"] []
      (some ["~", "d"]) []).2.2.2.1⟩

/-- C8 counterexample: a concrete call on a fresh cache (file present,
age 0, grace period 180, not forced) returns the DataFrame parsed from
the canonical file, not the canonical file path the claim states. -/
theorem acquire_returns_path_counterexample :
    (SchTools.fetchRun (some 7) 0 180 true false 3
      (fun _ => SchTools.AttemptResult.success) 9 true).ret
      = .ok (.frame 7) ∧
    SchTools.retIsFilePath
      (SchTools.fetchRun (some 7) 0 180 true false 3
        (fun _ => SchTools.AttemptResult.success) 9 true).ret = false :=
  ⟨rfl, rfl⟩

/-- Every normal return of the download branch of `fetch_sch_database` is
the DataFrame parsed from the (just published) canonical file content. -/
theorem downloadAndRead_ok_frame (init : Option SchTools.Content)
    (n : Nat) (results : Nat → SchTools.AttemptResult)
    (payload : SchTools.Content) (e : Bool) (r : SchTools.FetchReturn)
    (h : (SchTools.downloadAndRead init n results payload e).ret = .ok r) :
    ∃ c, r = .frame c ∧
      (SchTools.downloadAndRead init n results payload e).finalCanonical
        = some c := by
  cases hres : (SchTools.runDownload ⟨init, none⟩ n results payload e).result <;>
    cases hcan : (SchTools.runDownload ⟨init, none⟩ n results payload e).fsCanonical <;>
      simp [SchTools.downloadAndRead, hres, hcan] at h ⊢
  exact h.symm

/-- C8 as amended: whatever `fetch_sch_database` returns normally is the
DataFrame parsed from the canonical cached file — the value read from
the canonical content, never the canonical file path. -/
theorem acquire_returns_parsed_frame
    (init : Option SchTools.Content) (ageDays graceDays : Int)
    (dim force : Bool) (nRetries : Nat)
    (results : Nat → SchTools.AttemptResult) (payload : SchTools.Content)
    (existsOk : Bool) (r : SchTools.FetchReturn)
    (h : (SchTools.fetchRun init ageDays graceDays dim force nRetries
        results payload existsOk).ret = .ok r) :
    ∃ c, r = .frame c ∧
      (SchTools.fetchRun init ageDays graceDays dim force nRetries results
        payload existsOk).finalCanonical = some c := by
  cases init with
  | none =>
    cases dim with
    | true =>
      simp only [SchTools.fetchRun, if_true] at h ⊢
      exact downloadAndRead_ok_frame none nRetries results payload existsOk r h
    | false =>
      simp [SchTools.fetchRun] at h
  | some c =>
    by_cases hage : ageDays > graceDays
    · simp only [SchTools.fetchRun, if_pos hage] at h ⊢
      exact downloadAndRead_ok_frame (some c) nRetries results payload
        existsOk r h
    · cases force with
      | true =>
        simp only [SchTools.fetchRun, if_neg hage, if_true] at h ⊢
        exact downloadAndRead_ok_frame (some c) nRetries results payload
          existsOk r h
      | false =>
        have hserve : SchTools.fetchRun (some c) ageDays graceDays dim false
            nRetries results payload existsOk
            = ⟨.ok (.frame c), 0, 0, some c⟩ := by
          simp [SchTools.fetchRun, hage]
        rw [hserve] at h ⊢
        have h4 : Except.ok (SchTools.FetchReturn.frame c) = Except.ok r := h
        injection h4 with h3
        exact ⟨c, h3.symm, rfl⟩

/-- Witness for the amended C8 at a concrete input: the fresh-cache call
published nothing and the returned frame is parsed from the cached
content 7. -/
theorem acquire_returns_parsed_frame_witness :
    (SchTools.fetchRun (some 7) 0 180 true false 3
      (fun _ => SchTools.AttemptResult.success) 9 true).finalCanonical
      = some 7 := by
  obtain ⟨c, hc, hfin⟩ := acquire_returns_parsed_frame (some 7) 0 180 true
    false 3 (fun _ => SchTools.AttemptResult.success) 9 true (.frame 7) rfl
  injection hc with hc7
  subst hc7
  exact hfin

/-- C10: the annotation loader raises `FileNotFoundError` exactly when
the given path, after `~` expansion, does not exist; when it exists the
loader returns the DataFrame parsed from the expanded path — never the
file path its signature and docstring declare. -/
theorem annot_loader_spec (home : SchTools.PathRep)
    (fsExists : SchTools.PathRep → Bool) (p : SchTools.PathRep) :
    (SchTools.fetchAnnot home fsExists p = .error .fileNotFound ↔
      fsExists (SchTools.expandUser home p) = false) ∧
    (fsExists (SchTools.expandUser home p) = true →
      SchTools.fetchAnnot home fsExists p
        = .ok (.frame (SchTools.expandUser home p))) ∧
    (∀ q, SchTools.fetchAnnot home fsExists p ≠ .ok (.filePathOf q)) := by
  cases h : fsExists (SchTools.expandUser home p) <;>
    simp [SchTools.fetchAnnot, h]

/-- Witness for C10 at concrete inputs: with the file reported present
the loader returns the parsed frame; with it reported absent the loader
raises `FileNotFoundError`. -/
theorem annot_loader_spec_witness :
    SchTools.fetchAnnot [] (fun _ => true) ["a"]
      = .ok (.frame (SchTools.expandUser [] ["a"])) ∧
    SchTools.fetchAnnot [] (fun _ => false) ["a"]
      = .error .fileNotFound :=
  ⟨(annot_loader_spec [] (fun _ => true) ["a"]).2.1 rfl,
   (annot_loader_spec [] (fun _ => false) ["a"]).1.mpr rfl⟩

/-- C9: for every value stored under the config's `sch_data_home` key,
the call `fetch_sch_database(config["datasets"]["sch_data_home"])` made by
`SCHToolsDatasets.__init__` passes one positional argument to a function
whose parameters are all keyword-only, so binding raises `TypeError` and
the body of `fetch_sch_database` is never entered — no dataset is
fetched. -/
theorem datasets_init_raises_type_error (v : SchTools.PathRep) :
    (SchTools.schToolsDatasetsInitBind v).bindError = some .typeErr ∧
    (SchTools.schToolsDatasetsInitBind v).bodyEntered = false :=
  ⟨rfl, rfl⟩

end SchTools
